import Mathlib

/-!
Shallow embedding of the Upload-and-Poll subsystem of the Data-Cleaner
frontend (React/TypeScript), covering:

* `usePolling` (src/frontend/src/services/api.ts) — the scheduled callback
  driver: an interval handle with an idempotent `stop`;
* `fetchJobStatus` / `handleStop` (JobStatusTracker component) — the job
  status state machine: how one poll result updates the tracker state
  (`job`, `error`, `isPolling`) and which callbacks/toasts fire;
* `handleFileSelect` / `handleUpload` (FileUpload component) — local
  payload validation and the processing configuration transmitted;
* `getDownloadUrl` (apiService) — the artifact locator.

Modelling conventions: JavaScript numbers that carry progress values are
modelled as `Int` (every claim only compares them and bounds them by
integers); byte sizes are `Nat`; absent/undefined values are `Option`;
a fetch that rejects is `FetchResult.err` carrying the optional HTTP
status (`err.response?.status`) and optional detail string
(`err.response?.data?.detail`).  A polling session is modelled
synchronously: `runPoll` folds the step function over the sequence of
fetch results, dispatching a poll only while the `isPolling` flag
(the `enabled` input of `usePolling`) is set.
-/

/-- Lifecycle states of a job, from the `JobStatus.status` union type. -/
inductive LifecycleState
  | uploaded
  | processing
  | completed
  | failed
deriving DecidableEq

/-- Optional dataset summary carried by a snapshot (`dataset_info`). -/
structure DatasetInfo where
  total_images : Nat
  file_size_mb : Int
  formats : List String
deriving DecidableEq

/-- One job status snapshot, from the `JobStatus` interface in api.ts. -/
structure JobStatus where
  job_id : String
  status : LifecycleState
  progress : Int
  message : String
  download_url : Option String := none
  dataset_info : Option DatasetInfo := none
deriving DecidableEq

/-- The result of one `apiService.getJobStatus` call as seen by the
tracker: either a parsed snapshot, or a rejection carrying the optional
HTTP status code and optional server detail message. -/
inductive FetchResult
  | ok (status : JobStatus)
  | err (httpStatus : Option Nat) (detail : Option String)
deriving DecidableEq

/-- Which of the optional `onComplete` / `onError` props were supplied to
the `JobStatusTracker` component. -/
structure TrackerCallbacks where
  hasOnComplete : Bool
  hasOnError : Bool
deriving DecidableEq

/-- The mutable state of one tracking session: the `job`, `error` and
`isPolling` `useState` cells of `JobStatusTracker`. -/
structure TrackerState where
  job : Option JobStatus
  error : Option String
  isPolling : Bool
deriving DecidableEq

/-- Observable effects emitted while handling one fetch result:
`applied` is a `setJob` call, the toasts are the `react-hot-toast`
notifications, `completeFired`/`errorFired` are invocations of the
`onComplete`/`onError` props. -/
inductive Event
  | applied (j : JobStatus)
  | toastSuccess (m : String)
  | toastError (m : String)
  | completeFired (j : JobStatus)
  | errorFired (m : String)
deriving DecidableEq

/-- One execution of `fetchJobStatus` in JobStatusTracker, applied to one
fetch result.  On success it stores the snapshot and clears the error,
then runs the `completed` and `failed` checks in source order; on a
rejection it stores the error detail and additionally disables polling
and fires `onError('Job not found')` exactly when the HTTP status is
404. -/
def fetchJobStatusStep (cb : TrackerCallbacks) (s : TrackerState)
    (r : FetchResult) : TrackerState × List Event :=
  match r with
  | .ok status =>
      let s1 : TrackerState := { s with job := some status, error := none }
      let completedEvs : List Event :=
        if status.status = .completed then
          Event.toastSuccess "Dataset processing completed!" ::
            (if cb.hasOnComplete then [Event.completeFired status] else [])
        else []
      let s2 : TrackerState :=
        if status.status = .completed then { s1 with isPolling := false } else s1
      let failedEvs : List Event :=
        if status.status = .failed then
          Event.toastError "Dataset processing failed" ::
            (if cb.hasOnError then
              [Event.errorFired
                (if status.message = "" then "Job failed" else status.message)]
             else [])
        else []
      let s3 : TrackerState :=
        if status.status = .failed then { s2 with isPolling := false } else s2
      (s3, Event.applied status :: (completedEvs ++ failedEvs))
  | .err httpStatus detail =>
      let s1 : TrackerState :=
        { s with error := some (detail.getD "Failed to fetch job status") }
      if httpStatus = some 404 then
        ({ s1 with isPolling := false },
         if cb.hasOnError then [Event.errorFired "Job not found"] else [])
      else (s1, [])

/-- Result of running a polling session over a sequence of fetch results:
final tracker state, the events emitted, and how many polls were actually
dispatched. -/
structure RunResult where
  state : TrackerState
  events : List Event
  dispatched : Nat
deriving DecidableEq

/-- A polling session: the driver dispatches the next poll only while the
session's `isPolling` flag (the `enabled` input of `usePolling`) is set;
each dispatched poll's result is handled by `fetchJobStatusStep`. -/
def runPoll (cb : TrackerCallbacks) : TrackerState → List FetchResult → RunResult
  | s, [] => ⟨s, [], 0⟩
  | s, r :: rs =>
      if s.isPolling then
        let p := fetchJobStatusStep cb s r
        let q := runPoll cb p.1 rs
        ⟨q.state, p.2 ++ q.events, q.dispatched + 1⟩
      else ⟨s, [], 0⟩

/-- A fetch result that leaves the polling flag enabled: a snapshot in a
non-terminal state, or a rejection whose HTTP status is not 404. -/
def keepsPolling : FetchResult → Bool
  | .ok j =>
      if j.status = .completed then false
      else if j.status = .failed then false
      else true
  | .err httpStatus _ =>
      if httpStatus = some 404 then false else true

/-- Recognize an `onComplete` invocation. -/
def isCompleteEv : Event → Bool
  | .completeFired _ => true
  | _ => false

/-- Recognize an `onError` invocation. -/
def isErrorEv : Event → Bool
  | .errorFired _ => true
  | _ => false

/-- Extract the snapshot of a `setJob` application event. -/
def appliedOf : Event → Option JobStatus
  | .applied j => some j
  | _ => none

/-- Extract the snapshot of a successful fetch result. -/
def okOf : FetchResult → Option JobStatus
  | .ok j => some j
  | _ => none

/-- All snapshots applied (via `setJob`) in an event trace, in order. -/
def appliedSnapshots (evs : List Event) : List JobStatus :=
  evs.filterMap appliedOf

/-- All successfully parsed snapshots in a fetch-result sequence. -/
def okSnapshots (rs : List FetchResult) : List JobStatus :=
  rs.filterMap okOf

/-- `handleStop` in JobStatusTracker: clears the `isPolling` flag (the
driver's `stop` is additionally invoked on the interval handle). -/
def handleStop (s : TrackerState) : TrackerState :=
  { s with isPolling := false }

/-- The interval handle owned by `usePolling`: `intervalRef.current`,
`none` when no interval is registered. -/
structure PollingDriver where
  intervalId : Option Nat
deriving DecidableEq

/-- The `stop` function returned by `usePolling`: clears the interval and
resets the handle when one is registered, and does nothing otherwise. -/
def PollingDriver.stop (d : PollingDriver) : PollingDriver :=
  match d.intervalId with
  | some _ => ⟨none⟩
  | none => d

/-- Whether the driver's interval would fire a tick: only a registered
interval is ever invoked by the host scheduler. -/
def PollingDriver.tickFires (d : PollingDriver) : Bool :=
  d.intervalId.isSome

/-- Number of tick invocations the host scheduler delivers to the driver
over the next `periods` interval periods: one per period while the
interval is registered, none otherwise. -/
def PollingDriver.ticksDelivered (d : PollingDriver) (periods : Nat) : Nat :=
  if d.tickFires then periods else 0

/-- A selected payload as the validator sees it: its name and its size in
bytes (`file.name`, `file.size`). -/
structure FileInfo where
  name : String
  size : Nat
deriving DecidableEq

/-- Outcome of `handleFileSelect`: rejected for size, rejected for type,
or accepted (stored via `setSelectedFile`). -/
inductive SelectOutcome
  | sizeExceeded
  | unsupportedType
  | selected
deriving DecidableEq

/-- The default accepted-types string of the FileUpload component. -/
def acceptedTypesDefault : String := ".zip,.jpg,.jpeg,.png,.bmp,.tiff,.webp"

/-- JavaScript `hay.includes(needle)`: substring containment. -/
def jsStringIncludes (hay needle : String) : Bool :=
  (List.range (hay.data.length + 1)).any fun i =>
    List.isPrefixOf needle.data (hay.data.drop i)

/-- JavaScript `'.' + file.name.split('.').pop()?.toLowerCase()`:
`split('.').pop()` is the text after the last dot (the whole name when it
has no dot, empty for a trailing dot); it is lower-cased (ASCII, which
covers every file name considered here) and a leading dot is prepended. -/
def fileExtensionOf (name : String) : String :=
  ⟨'.' :: ((name.data.reverse.takeWhile fun c => c ≠ '.').reverse.map
      Char.toLower)⟩

/-- `handleFileSelect` in FileUpload: rejects when `file.size` exceeds
`maxSize * 1024 * 1024` bytes, then rejects when the accepted-types
string does not contain (as a substring, per `String.prototype.includes`)
the file's extension, and otherwise stores the file.  `sel` is the
current `selectedFile`, returned unchanged on rejection because the
source returns before `setSelectedFile`. -/
def handleFileSelect (maxSize : Nat) (acceptedTypes : String)
    (sel : Option FileInfo) (file : FileInfo) :
    SelectOutcome × Option FileInfo :=
  if file.size > maxSize * 1024 * 1024 then
    (.sizeExceeded, sel)
  else if !(jsStringIncludes acceptedTypes (fileExtensionOf file.name)) then
    (.unsupportedType, sel)
  else
    (.selected, some file)

/-- The options object accepted by `apiService.uploadDataset`, every
field optional as in the TypeScript signature. -/
structure UploadOptions where
  quality_mode : Option String := none
  remove_duplicates : Option Bool := none
  resize_images : Option Bool := none
  target_width : Option Nat := none
  target_height : Option Nat := none
  normalize_format : Option Bool := none
  target_format : Option String := none
deriving DecidableEq

/-- JavaScript `value.toString()` for a boolean. -/
def boolToString : Bool → String
  | true => "true"
  | false => "false"

/-- One query parameter when the option value is present, none otherwise
(`uploadDataset` skips `null`/`undefined` values). -/
def queryParam (key : String) : Option String → List (String × String)
  | some v => [(key, v)]
  | none => []

/-- The query parameters `uploadDataset` appends, iterating the entries
of the options object in insertion order and skipping absent values. -/
def buildQueryParams (o : UploadOptions) : List (String × String) :=
  queryParam "quality_mode" o.quality_mode ++
  queryParam "remove_duplicates" (o.remove_duplicates.map boolToString) ++
  queryParam "resize_images" (o.resize_images.map boolToString) ++
  queryParam "target_width" (o.target_width.map toString) ++
  queryParam "target_height" (o.target_height.map toString) ++
  queryParam "normalize_format" (o.normalize_format.map boolToString) ++
  queryParam "target_format" o.target_format

/-- The options object literal `handleUpload` passes to
`apiService.uploadDataset`: the user's quality mode plus fixed flags,
and no resize fields. -/
def handleUploadOptions (qualityMode : String) : UploadOptions :=
  { quality_mode := some qualityMode
    remove_duplicates := some true
    normalize_format := some true
    target_format := some "JPEG" }

/-- `apiService.getDownloadUrl`: deterministic endpoint construction from
the configured base URL and the job identifier; no network call. -/
def getDownloadUrl (apiBaseUrl : String) (jobId : String) : String :=
  apiBaseUrl ++ "/api/v1/download/" ++ jobId

/-- The default `API_BASE_URL` of the service module. -/
def apiBaseUrlDefault : String := "http://localhost:8000"

/-- A lifecycle state that keeps the polling driver enabled. -/
def nonTerminal (st : LifecycleState) : Bool :=
  if st = .uploaded then true else if st = .processing then true else false

/-- Modelled from the spec: a single snapshot obeying the wire contract of
the backend status endpoint, which is not part of the sources under
verification — numeric progress lies in 0–100 inclusive and is pinned at
100 when the state is completed. -/
def validSnapshot (j : JobStatus) : Bool :=
  decide (0 ≤ j.progress) && decide (j.progress ≤ 100) &&
    (if j.status = .completed then decide (j.progress = 100) else true)

/-- Pairwise chain of a boolean relation along a list. -/
def chainB (R : JobStatus → JobStatus → Bool) : List JobStatus → Bool
  | [] => true
  | [_] => true
  | a :: b :: t => R a b && chainB R (b :: t)

/-- Modelled from the spec: between consecutive snapshots, progress never
decreases while the earlier snapshot is still non-terminal. -/
def monoStep (a b : JobStatus) : Bool :=
  !(nonTerminal a.status) || decide (a.progress ≤ b.progress)

/-- Modelled from the spec: a snapshot sequence obeying the backend wire
contract — every snapshot valid and progress monotone along non-terminal
steps. -/
def validTrace (l : List JobStatus) : Bool :=
  l.all validSnapshot && chainB monoStep l

/-- Concrete snapshots and states used as witnesses below. -/
def snapUploaded0 : JobStatus := ⟨"job-1", .uploaded, 0, "Uploaded", none, none⟩

def snapProcessing45 : JobStatus := ⟨"job-1", .processing, 45, "Working", none, none⟩

def snapProcessing80 : JobStatus := ⟨"job-1", .processing, 80, "Working", none, none⟩

def snapCompleted100 : JobStatus :=
  ⟨"job-1", .completed, 100, "Done", some "/api/v1/download/job-1", none⟩

def trackerInit : TrackerState := ⟨none, none, true⟩

def cbBoth : TrackerCallbacks := ⟨true, true⟩

theorem runPoll_not_polling (cb : TrackerCallbacks) (s : TrackerState)
    (rs : List FetchResult) (h : s.isPolling = false) :
    runPoll cb s rs = ⟨s, [], 0⟩ := by
  cases rs with
  | nil => rfl
  | cons r rs => simp [runPoll, h]

theorem keepsPolling_ok (j : JobStatus) (h : keepsPolling (.ok j) = true) :
    j.status ≠ .completed ∧ j.status ≠ .failed := by
  by_cases hc : j.status = .completed
  · simp [keepsPolling, hc] at h
  · by_cases hf : j.status = .failed
    · simp [keepsPolling, hc, hf] at h
    · exact ⟨hc, hf⟩

theorem keepsPolling_err (hst : Option Nat) (d : Option String)
    (h : keepsPolling (.err hst d) = true) : hst ≠ some 404 := by
  by_cases h4 : hst = some 404
  · simp [keepsPolling, h4] at h
  · exact h4

/-- A poll result that keeps polling leaves the flag untouched and fires
neither callback. -/
theorem fetchStep_keeps (cb : TrackerCallbacks) (s : TrackerState)
    (r : FetchResult) (h : keepsPolling r = true) :
    (fetchJobStatusStep cb s r).1.isPolling = s.isPolling ∧
    (fetchJobStatusStep cb s r).2.filter isCompleteEv = [] ∧
    (fetchJobStatusStep cb s r).2.filter isErrorEv = [] := by
  cases r with
  | ok j =>
      obtain ⟨hc, hf⟩ := keepsPolling_ok j h
      simp [fetchJobStatusStep, hc, hf, isCompleteEv, isErrorEv]
  | err hst d =>
      have h4 := keepsPolling_err hst d h
      simp [fetchJobStatusStep, h4]

/-- A terminal snapshot clears the polling flag. -/
theorem fetchStep_terminal (cb : TrackerCallbacks) (s : TrackerState)
    (c : JobStatus) (hterm : c.status = .completed ∨ c.status = .failed) :
    (fetchJobStatusStep cb s (.ok c)).1.isPolling = false := by
  cases hterm with
  | inl hc => simp [fetchJobStatusStep, hc]
  | inr hf => simp [fetchJobStatusStep, hf]

/-- A completed snapshot fires `onComplete` exactly when the callback was
supplied, and exactly once. -/
theorem fetchStep_completed (cb : TrackerCallbacks) (s : TrackerState)
    (c : JobStatus) (hc : c.status = .completed) :
    (fetchJobStatusStep cb s (.ok c)).2.filter isCompleteEv =
      (if cb.hasOnComplete then [Event.completeFired c] else []) := by
  have hf : c.status ≠ .failed := by simp [hc]
  cases hoc : cb.hasOnComplete <;>
    simp [fetchJobStatusStep, hc, hf, hoc, isCompleteEv]

/-- A 404 rejection clears the polling flag and fires `onError` with the
`Job not found` message exactly when the callback was supplied. -/
theorem fetchStep_404 (cb : TrackerCallbacks) (s : TrackerState)
    (d : Option String) :
    (fetchJobStatusStep cb s (.err (some 404) d)).1.isPolling = false ∧
    (fetchJobStatusStep cb s (.err (some 404) d)).2.filter isErrorEv =
      (if cb.hasOnError then [Event.errorFired "Job not found"] else []) := by
  cases hoe : cb.hasOnError <;> simp [fetchJobStatusStep, hoe, isErrorEv]

/-- Running the session over a flag-preserving segment reaches another
enabled state, dispatches once per segment element, and fires no
callback. -/
theorem runPoll_append_keeps (cb : TrackerCallbacks) :
    ∀ (pre : List FetchResult) (s : TrackerState) (rest : List FetchResult),
    s.isPolling = true → pre.all keepsPolling = true →
    ∃ s2 : TrackerState, s2.isPolling = true ∧
      (runPoll cb s (pre ++ rest)).state = (runPoll cb s2 rest).state ∧
      (runPoll cb s (pre ++ rest)).events.filter isCompleteEv =
        (runPoll cb s2 rest).events.filter isCompleteEv ∧
      (runPoll cb s (pre ++ rest)).events.filter isErrorEv =
        (runPoll cb s2 rest).events.filter isErrorEv ∧
      (runPoll cb s (pre ++ rest)).dispatched =
        pre.length + (runPoll cb s2 rest).dispatched := by
  intro pre
  induction pre with
  | nil =>
      intro s rest hs _
      exact ⟨s, hs, rfl, rfl, rfl, by simp⟩
  | cons r pre ih =>
      intro s rest hs hall
      have hr : keepsPolling r = true := by
        have := List.all_eq_true.mp hall r (by simp)
        exact this
      have hall2 : pre.all keepsPolling = true := by
        rw [List.all_eq_true] at hall ⊢
        intro x hx
        exact hall x (by simp [hx])
      obtain ⟨hkp, hkc, hke⟩ := fetchStep_keeps cb s r hr
      have hp : (fetchJobStatusStep cb s r).1.isPolling = true := by
        rw [hkp]; exact hs
      obtain ⟨s2, hs2, hst, hfc, hfe, hd⟩ :=
        ih (fetchJobStatusStep cb s r).1 rest hp hall2
      have hrun : runPoll cb s ((r :: pre) ++ rest) =
          ⟨(runPoll cb (fetchJobStatusStep cb s r).1 (pre ++ rest)).state,
           (fetchJobStatusStep cb s r).2 ++
             (runPoll cb (fetchJobStatusStep cb s r).1 (pre ++ rest)).events,
           (runPoll cb (fetchJobStatusStep cb s r).1 (pre ++ rest)).dispatched
             + 1⟩ := by
        simp [runPoll, hs]
      refine ⟨s2, hs2, ?_, ?_, ?_, ?_⟩
      · rw [hrun]; exact hst
      · rw [hrun]
        show ((fetchJobStatusStep cb s r).2 ++ _).filter isCompleteEv = _
        rw [List.filter_append, hkc, List.nil_append]
        exact hfc
      · rw [hrun]
        show ((fetchJobStatusStep cb s r).2 ++ _).filter isErrorEv = _
        rw [List.filter_append, hke, List.nil_append]
        exact hfe
      · rw [hrun]
        show (runPoll cb (fetchJobStatusStep cb s r).1 (pre ++ rest)).dispatched
            + 1 = (r :: pre).length + (runPoll cb s2 rest).dispatched
        rw [hd, List.length_cons]
        omega

/-- C1: once a snapshot in a terminal lifecycle state (completed or
failed) is applied by the tracker, the polling driver is disabled and no
further poll is dispatched — exactly the polls before and including the
terminal one run; on a completed snapshot the onComplete callback fires
exactly once over the whole session. -/
theorem terminal_snapshot_disables_polling
    (cb : TrackerCallbacks) (s : TrackerState) (pre post : List FetchResult)
    (c : JobStatus)
    (hcb : cb.hasOnComplete = true) (hs : s.isPolling = true)
    (hpre : pre.all keepsPolling = true)
    (hterm : c.status = .completed ∨ c.status = .failed) :
    (runPoll cb s (pre ++ .ok c :: post)).state.isPolling = false ∧
    (runPoll cb s (pre ++ .ok c :: post)).dispatched = pre.length + 1 ∧
    (c.status = .completed →
      (runPoll cb s (pre ++ .ok c :: post)).events.filter isCompleteEv
        = [Event.completeFired c]) := by
  obtain ⟨s2, hs2, hst, hfc, _, hd⟩ :=
    runPoll_append_keeps cb pre s (.ok c :: post) hs hpre
  have hterm2 : (fetchJobStatusStep cb s2 (.ok c)).1.isPolling = false :=
    fetchStep_terminal cb s2 c hterm
  have hrest : runPoll cb (fetchJobStatusStep cb s2 (.ok c)).1 post =
      ⟨(fetchJobStatusStep cb s2 (.ok c)).1, [], 0⟩ :=
    runPoll_not_polling _ _ _ hterm2
  have hrun : runPoll cb s2 (.ok c :: post) =
      ⟨(fetchJobStatusStep cb s2 (.ok c)).1,
        (fetchJobStatusStep cb s2 (.ok c)).2, 1⟩ := by
    simp [runPoll, hs2, hrest]
  refine ⟨?_, ?_, ?_⟩
  · rw [hst, hrun]; exact hterm2
  · rw [hd, hrun]
  · intro hc
    rw [hfc, hrun]
    have hone := fetchStep_completed cb s2 c hc
    rw [hcb] at hone
    simpa using hone

/-- C1 witness: a processing snapshot, then a completed one, with one
more poll result queued behind it that is never dispatched. -/
theorem terminal_snapshot_disables_polling_witness :
    (runPoll cbBoth trackerInit
      ([FetchResult.ok snapProcessing45] ++
        FetchResult.ok snapCompleted100 ::
          [FetchResult.ok snapCompleted100])).state.isPolling = false ∧
    (runPoll cbBoth trackerInit
      ([FetchResult.ok snapProcessing45] ++
        FetchResult.ok snapCompleted100 ::
          [FetchResult.ok snapCompleted100])).dispatched =
      [FetchResult.ok snapProcessing45].length + 1 ∧
    (snapCompleted100.status = .completed →
      (runPoll cbBoth trackerInit
        ([FetchResult.ok snapProcessing45] ++
          FetchResult.ok snapCompleted100 ::
            [FetchResult.ok snapCompleted100])).events.filter isCompleteEv
        = [Event.completeFired snapCompleted100]) :=
  terminal_snapshot_disables_polling cbBoth trackerInit
    [FetchResult.ok snapProcessing45] [FetchResult.ok snapCompleted100]
    snapCompleted100 rfl rfl (by decide) (Or.inl rfl)

/-- C2: a poll rejected with HTTP 404 disables polling, exactly one
onError invocation fires over the whole session (with the Job not found
message), and no poll behind it is dispatched — whatever progress was
observed before. -/
theorem poll_404_fires_job_not_found
    (cb : TrackerCallbacks) (s : TrackerState) (pre post : List FetchResult)
    (d : Option String)
    (hcb : cb.hasOnError = true) (hs : s.isPolling = true)
    (hpre : pre.all keepsPolling = true) :
    (runPoll cb s (pre ++ .err (some 404) d :: post)).state.isPolling
      = false ∧
    (runPoll cb s (pre ++ .err (some 404) d :: post)).events.filter isErrorEv
      = [Event.errorFired "Job not found"] ∧
    (runPoll cb s (pre ++ .err (some 404) d :: post)).dispatched
      = pre.length + 1 := by
  obtain ⟨s2, hs2, hst, _, hfe, hd⟩ :=
    runPoll_append_keeps cb pre s (.err (some 404) d :: post) hs hpre
  obtain ⟨hoff, hone⟩ := fetchStep_404 cb s2 d
  have hrest : runPoll cb (fetchJobStatusStep cb s2 (.err (some 404) d)).1
      post = ⟨(fetchJobStatusStep cb s2 (.err (some 404) d)).1, [], 0⟩ :=
    runPoll_not_polling _ _ _ hoff
  have hrun : runPoll cb s2 (.err (some 404) d :: post) =
      ⟨(fetchJobStatusStep cb s2 (.err (some 404) d)).1,
        (fetchJobStatusStep cb s2 (.err (some 404) d)).2, 1⟩ := by
    simp [runPoll, hs2, hrest]
  refine ⟨?_, ?_, ?_⟩
  · rw [hst, hrun]; exact hoff
  · rw [hfe, hrun]
    rw [hcb] at hone
    simpa using hone
  · rw [hd, hrun]

/-- C2 witness: progress had reached 80 percent before the 404; the
session still stops with a single Job not found error, and the queued
poll behind the 404 is not dispatched. -/
theorem poll_404_fires_job_not_found_witness :
    (runPoll cbBoth trackerInit
      ([FetchResult.ok snapProcessing80] ++
        FetchResult.err (some 404) none ::
          [FetchResult.err (some 404) none])).state.isPolling = false ∧
    (runPoll cbBoth trackerInit
      ([FetchResult.ok snapProcessing80] ++
        FetchResult.err (some 404) none ::
          [FetchResult.err (some 404) none])).events.filter isErrorEv
      = [Event.errorFired "Job not found"] ∧
    (runPoll cbBoth trackerInit
      ([FetchResult.ok snapProcessing80] ++
        FetchResult.err (some 404) none ::
          [FetchResult.err (some 404) none])).dispatched
      = [FetchResult.ok snapProcessing80].length + 1 :=
  poll_404_fires_job_not_found cbBoth trackerInit
    [FetchResult.ok snapProcessing80] [FetchResult.err (some 404) none]
    none rfl rfl (by decide)

/-- The network submission a subsequent `handleUpload` click would make:
none while no file is stored, otherwise the stored file together with the
options literal it builds. -/
def uploadRequest (qualityMode : String) :
    Option FileInfo → Option (FileInfo × UploadOptions)
  | none => none
  | some f => some (f, handleUploadOptions qualityMode)

/-- C3: a payload larger than the megabyte-denominated ceiling is
classified SizeExceeded, the stored selection is unchanged (the source
returns before setSelectedFile), and therefore the set of network
submissions a later upload click could make is exactly what it was
before — the rejected payload triggers no network call. -/
theorem oversize_payload_rejected
    (maxSize : Nat) (acceptedTypes : String) (sel : Option FileInfo)
    (file : FileInfo) (h : file.size > maxSize * 1024 * 1024) :
    handleFileSelect maxSize acceptedTypes sel file
      = (SelectOutcome.sizeExceeded, sel) ∧
    (∀ qm : String,
      uploadRequest qm (handleFileSelect maxSize acceptedTypes sel file).2
        = uploadRequest qm sel) := by
  have hmain : handleFileSelect maxSize acceptedTypes sel file
      = (SelectOutcome.sizeExceeded, sel) := by
    simp [handleFileSelect, h]
  exact ⟨hmain, fun qm => by rw [hmain]⟩

/-- C3 witness: a 2048 MB payload against the default 1024 MB ceiling. -/
theorem oversize_payload_rejected_witness :
    handleFileSelect 1024 acceptedTypesDefault none
      ⟨"dataset.zip", 2048 * 1024 * 1024⟩
      = (SelectOutcome.sizeExceeded, none) ∧
    (∀ qm : String,
      uploadRequest qm (handleFileSelect 1024 acceptedTypesDefault none
        ⟨"dataset.zip", 2048 * 1024 * 1024⟩).2 = uploadRequest qm none) :=
  oversize_payload_rejected 1024 acceptedTypesDefault none
    ⟨"dataset.zip", 2048 * 1024 * 1024⟩ (by decide)

/-- C4: the source tests extension membership with JavaScript
String.prototype.includes, which is substring containment on the
accepted-types string, not set membership.  The extension ".jp" is not a
member of the accepted set, yet the validator accepts the file because
".jp" is a substring of ".jpg": evaluated here at the failing input. -/
theorem extension_substring_check_accepts_nonmember :
    handleFileSelect 1024 acceptedTypesDefault none ⟨"photo.jp", 100⟩
      = (SelectOutcome.selected, some ⟨"photo.jp", 100⟩) ∧
    fileExtensionOf "photo.jp" = ".jp" ∧
    jsStringIncludes acceptedTypesDefault ".jp" = true := by
  decide

/-- C5: the artifact locator is a pure, deterministic function of the
configured base endpoint and the job identifier: two calls with the same
identifier give an identical string, equal to the endpoint
concatenation. -/
theorem getDownloadUrl_pure_deterministic
    (base id1 id2 : String) (h : id1 = id2) :
    getDownloadUrl base id1 = getDownloadUrl base id2 ∧
    getDownloadUrl base id1 = base ++ "/api/v1/download/" ++ id1 := by
  subst h
  exact ⟨rfl, rfl⟩

/-- C5 witness at the default base URL and a concrete identifier. -/
theorem getDownloadUrl_pure_deterministic_witness :
    getDownloadUrl apiBaseUrlDefault "job-1"
      = getDownloadUrl apiBaseUrlDefault "job-1" ∧
    getDownloadUrl apiBaseUrlDefault "job-1"
      = apiBaseUrlDefault ++ "/api/v1/download/" ++ "job-1" :=
  getDownloadUrl_pure_deterministic apiBaseUrlDefault "job-1" "job-1" rfl

/-- C7 amended: a stop request (isPolling cleared) prevents any further
dispatch, but the tracker performs no session-active check before
applying a snapshot: a response still in flight at the moment of the stop
request is applied to the session state when it arrives. -/
theorem stop_gates_dispatch_not_application
    (cb : TrackerCallbacks) (s : TrackerState) (j : JobStatus)
    (rs : List FetchResult) (hs : s.isPolling = false) :
    runPoll cb s rs = ⟨s, [], 0⟩ ∧
    (fetchJobStatusStep cb s (.ok j)).1.job = some j := by
  refine ⟨runPoll_not_polling cb s rs hs, ?_⟩
  by_cases hc : j.status = .completed <;> by_cases hf : j.status = .failed <;>
    simp [fetchJobStatusStep, hc, hf]

/-- C7 counterexample: after a stop request the session flag is cleared,
yet a late successful response is still applied — setJob stores the new
snapshot, refuting that no late snapshot is ever applied after stop. -/
theorem late_snapshot_applied_after_stop :
    (handleStop ⟨some snapProcessing45, none, true⟩).isPolling = false ∧
    (fetchJobStatusStep cbBoth (handleStop ⟨some snapProcessing45, none, true⟩)
      (.ok snapProcessing80)).1.job = some snapProcessing80 ∧
    some snapProcessing80 ≠ some snapProcessing45 := by
  decide

/-- C7 amended witness: a stopped session dispatches nothing, and the
in-flight 80 percent snapshot is still applied to it. -/
theorem stop_gates_dispatch_not_application_witness :
    runPoll cbBoth (handleStop trackerInit) [FetchResult.ok snapProcessing80]
      = ⟨handleStop trackerInit, [], 0⟩ ∧
    (fetchJobStatusStep cbBoth (handleStop trackerInit)
      (.ok snapProcessing80)).1.job = some snapProcessing80 :=
  stop_gates_dispatch_not_application cbBoth (handleStop trackerInit)
    snapProcessing80 [FetchResult.ok snapProcessing80] rfl

/-- C8: a fetch rejection whose HTTP status is not 404 is transient: the
polling flag is unchanged, the last known snapshot is retained, the error
cell records the advisory detail (or the generic message), and no
callback or toast fires. -/
theorem transient_poll_error_is_advisory
    (cb : TrackerCallbacks) (s : TrackerState) (hst : Option Nat)
    (d : Option String) (h : hst ≠ some 404) :
    (fetchJobStatusStep cb s (.err hst d)).1.isPolling = s.isPolling ∧
    (fetchJobStatusStep cb s (.err hst d)).1.job = s.job ∧
    (fetchJobStatusStep cb s (.err hst d)).1.error
      = some (d.getD "Failed to fetch job status") ∧
    (fetchJobStatusStep cb s (.err hst d)).2 = [] := by
  simp [fetchJobStatusStep, h]

/-- C8 witness: an HTTP 500 with a detail message leaves the 80 percent
snapshot and the polling flag as they were. -/
theorem transient_poll_error_is_advisory_witness :
    (fetchJobStatusStep cbBoth ⟨some snapProcessing80, none, true⟩
      (.err (some 500) (some "server hiccup"))).1.isPolling
      = (⟨some snapProcessing80, none, true⟩ : TrackerState).isPolling ∧
    (fetchJobStatusStep cbBoth ⟨some snapProcessing80, none, true⟩
      (.err (some 500) (some "server hiccup"))).1.job
      = (⟨some snapProcessing80, none, true⟩ : TrackerState).job ∧
    (fetchJobStatusStep cbBoth ⟨some snapProcessing80, none, true⟩
      (.err (some 500) (some "server hiccup"))).1.error
      = some ((some "server hiccup").getD "Failed to fetch job status") ∧
    (fetchJobStatusStep cbBoth ⟨some snapProcessing80, none, true⟩
      (.err (some 500) (some "server hiccup"))).2 = [] :=
  transient_poll_error_is_advisory cbBoth ⟨some snapProcessing80, none, true⟩
    (some 500) (some "server hiccup") (by decide)

/-- C9: the driver stop operation is idempotent — stopping an already
stopped driver leaves it stopped and unchanged — and a stopped driver
never fires a tick: the host scheduler delivers zero invocations over any
number of periods after stop returns. -/
theorem driver_stop_idempotent_no_tick (d : PollingDriver) (n : Nat) :
    d.stop.stop = d.stop ∧
    d.stop.tickFires = false ∧
    d.stop.ticksDelivered n = 0 := by
  cases d with
  | mk i =>
      cases i <;>
        simp [PollingDriver.stop, PollingDriver.tickFires,
          PollingDriver.ticksDelivered]

theorem appliedSnapshots_append (a b : List Event) :
    appliedSnapshots (a ++ b) = appliedSnapshots a ++ appliedSnapshots b := by
  simp [appliedSnapshots]

/-- Handling a successful poll applies exactly that snapshot. -/
theorem fetchStep_applied_ok (cb : TrackerCallbacks) (s : TrackerState)
    (j : JobStatus) :
    appliedSnapshots (fetchJobStatusStep cb s (.ok j)).2 = [j] := by
  by_cases hc : j.status = .completed <;> by_cases hf : j.status = .failed <;>
    cases hoc : cb.hasOnComplete <;> cases hoe : cb.hasOnError <;>
      simp [fetchJobStatusStep, appliedSnapshots, appliedOf, hc, hf, hoc, hoe]

/-- Handling a rejected poll applies no snapshot. -/
theorem fetchStep_applied_err (cb : TrackerCallbacks) (s : TrackerState)
    (hst : Option Nat) (d : Option String) :
    appliedSnapshots (fetchJobStatusStep cb s (.err hst d)).2 = [] := by
  by_cases h4 : hst = some 404 <;> cases hoe : cb.hasOnError <;>
    simp [fetchJobStatusStep, appliedSnapshots, appliedOf, h4, hoe]

/-- The snapshots a session applies form an initial segment of the
successfully parsed snapshots of the fetch-result sequence. -/
theorem runPoll_applied_initial_segment (cb : TrackerCallbacks) :
    ∀ (rs : List FetchResult) (s : TrackerState),
    ∃ t, appliedSnapshots (runPoll cb s rs).events ++ t = okSnapshots rs := by
  intro rs
  induction rs with
  | nil => exact fun s => ⟨[], rfl⟩
  | cons r rs ih =>
      intro s
      by_cases hs : s.isPolling = true
      · have hrun : runPoll cb s (r :: rs) =
            ⟨(runPoll cb (fetchJobStatusStep cb s r).1 rs).state,
             (fetchJobStatusStep cb s r).2 ++
               (runPoll cb (fetchJobStatusStep cb s r).1 rs).events,
             (runPoll cb (fetchJobStatusStep cb s r).1 rs).dispatched + 1⟩ := by
          simp [runPoll, hs]
        obtain ⟨t, ht⟩ := ih (fetchJobStatusStep cb s r).1
        refine ⟨t, ?_⟩
        rw [hrun]
        cases r with
        | ok j =>
            show appliedSnapshots ((fetchJobStatusStep cb s (.ok j)).2 ++ _)
                ++ t = okSnapshots (FetchResult.ok j :: rs)
            rw [appliedSnapshots_append, fetchStep_applied_ok]
            have hok : okSnapshots (FetchResult.ok j :: rs)
                = j :: okSnapshots rs := by
              simp [okSnapshots, okOf]
            rw [hok]
            simpa using ht
        | err hst d =>
            show appliedSnapshots ((fetchJobStatusStep cb s (.err hst d)).2
                ++ _) ++ t = okSnapshots (FetchResult.err hst d :: rs)
            rw [appliedSnapshots_append, fetchStep_applied_err]
            have hok : okSnapshots (FetchResult.err hst d :: rs)
                = okSnapshots rs := by
              simp [okSnapshots, okOf]
            rw [hok]
            simpa using ht
      · have hnp : s.isPolling = false := by
          cases hx : s.isPolling
          · rfl
          · exact absurd hx hs
        rw [runPoll_not_polling cb s (r :: rs) hnp]
        exact ⟨okSnapshots (r :: rs), by simp [appliedSnapshots]⟩

/-- A pairwise chain along a list restricts to any initial segment. -/
theorem chainB_append_left (R : JobStatus → JobStatus → Bool) :
    ∀ (l t : List JobStatus), chainB R (l ++ t) = true → chainB R l = true
  | [], _, _ => rfl
  | [_], _, _ => rfl
  | a :: b :: l, t, h => by
      have h2 : (R a b && chainB R ((b :: l) ++ t)) = true := h
      rw [Bool.and_eq_true] at h2
      have hrec := chainB_append_left R (b :: l) t h2.2
      show (R a b && chainB R (b :: l)) = true
      rw [Bool.and_eq_true]
      exact ⟨h2.1, hrec⟩

/-- The wire contract is closed under initial segments. -/
theorem validTrace_initial_segment (l t : List JobStatus)
    (h : validTrace (l ++ t) = true) : validTrace l = true := by
  unfold validTrace at h ⊢
  rw [Bool.and_eq_true] at h ⊢
  have h1 := h.1
  rw [List.all_append, Bool.and_eq_true] at h1
  exact ⟨h1.1, chainB_append_left monoStep l t h.2⟩

/-- C6: when the fetched snapshots obey the backend wire contract
(progress within 0–100, pinned at 100 on completed, non-decreasing while
non-terminal — modelled from the spec, the backend being outside the
sources), the snapshots the tracker actually applies satisfy the same
bounds and pairwise monotonicity. -/
theorem applied_snapshots_monotone_bounded
    (cb : TrackerCallbacks) (s : TrackerState) (rs : List FetchResult)
    (hvalid : validTrace (okSnapshots rs) = true) :
    (appliedSnapshots (runPoll cb s rs).events).all validSnapshot = true ∧
    chainB monoStep (appliedSnapshots (runPoll cb s rs).events) = true := by
  obtain ⟨t, ht⟩ := runPoll_applied_initial_segment cb rs s
  have h := validTrace_initial_segment _ t (by rw [ht]; exact hvalid)
  unfold validTrace at h
  rw [Bool.and_eq_true] at h
  exact h

/-- C6 witness: the uploaded 0, processing 45, completed 100 run. -/
theorem applied_snapshots_monotone_bounded_witness :
    (appliedSnapshots (runPoll cbBoth trackerInit
      [FetchResult.ok snapUploaded0, FetchResult.ok snapProcessing45,
       FetchResult.ok snapCompleted100]).events).all validSnapshot = true ∧
    chainB monoStep (appliedSnapshots (runPoll cbBoth trackerInit
      [FetchResult.ok snapUploaded0, FetchResult.ok snapProcessing45,
       FetchResult.ok snapCompleted100]).events) = true :=
  applied_snapshots_monotone_bounded cbBoth trackerInit
    [FetchResult.ok snapUploaded0, FetchResult.ok snapProcessing45,
     FetchResult.ok snapCompleted100] (by decide)

/-- C10: every upload initiated by the component transmits exactly the
fixed derived flags remove_duplicates=true, normalize_format=true,
target_format=JPEG, with only quality_mode varying, and no resize target
fields. -/
theorem upload_config_fixed_flags (qualityMode : String) :
    buildQueryParams (handleUploadOptions qualityMode) =
      [("quality_mode", qualityMode), ("remove_duplicates", "true"),
       ("normalize_format", "true"), ("target_format", "JPEG")] ∧
    (handleUploadOptions qualityMode).resize_images = none ∧
    (handleUploadOptions qualityMode).target_width = none ∧
    (handleUploadOptions qualityMode).target_height = none :=
  ⟨rfl, rfl, rfl, rfl⟩
